import Mathlib

/-!
Shallow embedding of the admission-registry webhook core
(src/pkg/webhook.go) and proofs about its specification.

Modelling conventions:
* Go strings are Lean `String`s; `strings.HasPrefix` is modelled by
  char-list prefix testing (byte-prefix of well-formed UTF-8 by a whole
  string coincides with char-prefix).
* Raw byte payloads (`request body`, `req.Object.Raw`) are `List Nat`.
* The external serializer library (`deserializer.Decode`,
  `json.Unmarshal`) is passed in as an explicit `Codec` record:
  `decodeAR` returns the (possibly partially filled) struct together
  with an optional error, mirroring Go's out-parameter plus error
  return; `unmarshalPod` returns `Except` of the parsed pod.
* `json.Marshal` of the response envelope cannot fail for these struct
  types, so the encode-failure branch (lines 91-96) is not reachable in
  the model and writing the envelope is modelled as the outcome
  `HandlerOutcome.wrote`.
* A nil-pointer dereference (a Go runtime panic) is modelled as the
  outcome `HandlerOutcome.panicked`; inside `validate` it is the `none`
  result.
-/

/-- A container of a pod spec; only the image reference is consumed
(webhook.go line 130-133). -/
structure Container where
  image : String
deriving DecidableEq, Repr

/-- The pod spec: an ordered list of containers. -/
structure PodSpec where
  containers : List Container
deriving DecidableEq, Repr

/-- The workload object decoded from the raw payload (corev1.Pod). -/
structure Pod where
  spec : PodSpec
deriving DecidableEq, Repr

/-- metav1.Status as used here: a code and a message. -/
structure Status where
  code : Int
  message : String
deriving DecidableEq, Repr

/-- admissionV1.AdmissionRequest, restricted to the fields the core
consumes: the review UID and the raw object payload.  The further
fields (Kind, Namespace, Name) are only interpolated into a log line;
their values never influence the outcome, so they are omitted — the
nil-pointer dereference that the log line performs on a nil request is
still modelled (see `WebhookServer.validate`). -/
structure AdmissionRequest where
  uid : String
  objectRaw : List Nat
deriving DecidableEq, Repr

/-- admissionV1.AdmissionResponse: UID, allowed flag and result status.
Zero values: empty UID, `allowed = false`, `result = none`. -/
structure AdmissionResponse where
  uid : String
  allowed : Bool
  result : Option Status
deriving DecidableEq, Repr

/-- admissionV1.AdmissionReview: TypeMeta (apiVersion, kind) plus
optional request and response (both are pointers in Go, hence
`Option`). -/
structure AdmissionReview where
  apiVersion : String
  kind : String
  request : Option AdmissionRequest
  response : Option AdmissionResponse
deriving DecidableEq, Repr

/-- The webhook server state consumed by the core: the whitelist of
registry prefixes (`WhiteListRegistries`). -/
structure WebhookServer where
  whiteListRegistries : List String
deriving DecidableEq, Repr

/-- strings.HasPrefix(s, reg): `reg` is a literal prefix of `s`. -/
def strHasPrefix (s reg : String) : Bool :=
  reg.data.isPrefixOf s.data

/-- The inner loop of webhook.go lines 131-136: start from
`whitelisted = false` and set it to `true` whenever some registry
prefix matches (no break; the fold mirrors the loop exactly). -/
def whitelistedLoop (image : String) (regs : List String) : Bool :=
  regs.foldl (fun w reg => if strHasPrefix image reg then true else w) false

/-- Go fmt's rendering of a []string under the %v verb:
`[elem1 elem2 ...]`. -/
def goStringSliceFmt (xs : List String) : String :=
  "[" ++ String.intercalate " " xs ++ "]"

/-- The Sprintf at webhook.go lines 140-141 (the wording, including the
original's "form", is verbatim from the source). -/
def untrustedMsg (image : String) (regs : List String) : String :=
  image ++ " image comes from untrusted registry! Only images form " ++
    goStringSliceFmt regs ++ " are allowed."

/-- The outer loop of webhook.go lines 130-144: starting from
`allowed = true, code = 200, message = ""`, stop at the first
non-whitelisted container with `(false, 403, untrustedMsg ...)`
(the `break` makes the recursion stop there). -/
def containersLoop (regs : List String) : List Container → Bool × Int × String
  | [] => (true, 200, "")
  | c :: rest =>
    if whitelistedLoop c.image regs then containersLoop regs rest
    else (false, 403, untrustedMsg c.image regs)

/-- The decision construction of webhook.go lines 129-151: run the
container loop and package the verdict as an AdmissionResponse
(UID left at its zero value; the Handler fills it in later). -/
def evaluate (s : WebhookServer) (pod : Pod) : AdmissionResponse :=
  let r := containersLoop s.whiteListRegistries pod.spec.containers
  { uid := "", allowed := r.1, result := some { code := r.2.1, message := r.2.2 } }

/-- WebhookServer.validate (webhook.go lines 106-152).  `none` models
the Go runtime panic: when `ar.Request` is nil, the klog.Info call at
lines 113-114 dereferences `req.Kind` through the nil pointer.  On an
unmarshal error the response carries code 400 and the error text with
`Allowed` at its zero value `false`; otherwise the container loop
decides. -/
def WebhookServer.validate (s : WebhookServer)
    (unmarshalPod : List Nat → Except String Pod)
    (ar : AdmissionReview) : Option AdmissionResponse :=
  match ar.request with
  | none => none
  | some req =>
    match unmarshalPod req.objectRaw with
    | .error e =>
      some { uid := "", allowed := false
             result := some { code := 400, message := e } }
    | .ok pod => some (evaluate s pod)

/-- The external serializer machinery.  `decodeAR` models
`deserializer.Decode(body, nil, &requestedAdmissionReview)`: it yields
the struct value resulting from the decode attempt together with an
optional error (on error the struct holds whatever the decoder left
behind — its zero value in the typical case).  `unmarshalPod` models
`json.Unmarshal(req.Object.Raw, &pod)`. -/
structure Codec where
  decodeAR : List Nat → AdmissionReview × Option String
  unmarshalPod : List Nat → Except String Pod

/-- The transport-level request as seen by the Handler: the bytes that
were successfully read from the body (empty when the body was nil,
empty, or errored while reading, per lines 36-41), the Content-Type
header value, and the URL path. -/
structure HttpRequest where
  body : List Nat
  contentType : String
  path : String
deriving DecidableEq, Repr

/-- Everything the Handler can do to the transport connection.
`httpError` is an `http.Error` call (explicit outer status),
`noWrite` is returning without touching the writer (Go's server then
sends an implicit 200 with an empty body), `wrote` is a successful
`writer.Write` of the marshalled envelope (outer status 200), and
`panicked` is a runtime panic escaping the handler. -/
inductive HandlerOutcome where
  | httpError (status : Nat) (msg : String)
  | noWrite
  | wrote (env : AdmissionReview)
  | panicked
deriving DecidableEq, Repr

/-- Lines 76-102: build the response AdmissionReview (mirroring
apiVersion and kind of the requested one, its own Request nil), attach
the admission response when present, and copy the request UID into it
when the requested review carried a Request.  Marshalling these structs
cannot fail, so the envelope is always written. -/
def writeEnvelope (reqAR : AdmissionReview)
    (admissionResponse : Option AdmissionResponse) : HandlerOutcome :=
  .wrote {
    apiVersion := reqAR.apiVersion
    kind := reqAR.kind
    request := none
    response :=
      match admissionResponse, reqAR.request with
      | some resp, some req => some { resp with uid := req.uid }
      | some resp, none => some resp
      | none, _ => none }

/-- WebhookServer.Handler (webhook.go lines 35-104).
Empty body: `http.Error(writer, "empty data body", 400)`.
Content-Type other than "application/json": the source calls
`klog.Error(writer, ...)` — a log call, not `http.Error` — and
returns, so nothing is written to the connection (`noWrite`).
Then the body is decoded; a decode error produces a code-500 response
carried inside a still-written envelope; otherwise `/mutate` is a
no-op (nil response), `/validate` runs `validate` (whose panic
propagates out of the handler), and any other path also yields a nil
response. -/
def Handler (s : WebhookServer) (codec : Codec) (r : HttpRequest) :
    HandlerOutcome :=
  if r.body.length = 0 then .httpError 400 "empty data body"
  else if r.contentType = "application/json" then
    match codec.decodeAR r.body with
    | (reqAR, some e) =>
      writeEnvelope reqAR
        (some { uid := "", allowed := false
                result := some { code := 500, message := e } })
    | (reqAR, none) =>
      if r.path = "/mutate" then writeEnvelope reqAR none
      else if r.path = "/validate" then
        match s.validate codec.unmarshalPod reqAR with
        | none => .panicked
        | some resp => writeEnvelope reqAR (some resp)
      else writeEnvelope reqAR none
  else .noWrite

/-! Concrete instances used by the closed theorems and witnesses below.
The image references and the whitelist come from the worked examples of
the documentation. -/

/-- A pod whose single container image is on the example whitelist. -/
def podNginx : Pod := ⟨⟨[⟨"docker.io/library/nginx:1.21"⟩]⟩⟩

/-- A pod with one compliant and one non-compliant container. -/
def podMixed : Pod :=
  ⟨⟨[⟨"docker.io/library/nginx:1.21"⟩, ⟨"evil.com/malware:latest"⟩]⟩⟩

/-- A pod whose single container image is "gcr.io/myorg/app:v2". -/
def podApp : Pod := ⟨⟨[⟨"gcr.io/myorg/app:v2"⟩]⟩⟩

/-- A pod whose single container image is the one-character string "c". -/
def podC : Pod := ⟨⟨[⟨"c"⟩]⟩⟩

/-- The example two-entry whitelist. -/
def srvExample : WebhookServer := ⟨["docker.io/library/", "gcr.io/myorg/"]⟩

/-- A one-entry whitelist. -/
def srvOrg : WebhookServer := ⟨["gcr.io/myorg/"]⟩

/-- A whitelist that contains the empty string as an entry. -/
def srvEmptyPfx : WebhookServer := ⟨["gcr.io/myorg/", ""]⟩

/-- An AdmissionRequest with a fixed UID and an opaque raw payload. -/
def admReqUid : AdmissionRequest :=
  { uid := "705ab4f5-6393-11e8-b7cc-42010a800002", objectRaw := [123] }

/-- A decoded review whose Request pointer is nil. -/
def arNilReq : AdmissionReview :=
  { apiVersion := "admission.k8s.io/v1", kind := "AdmissionReview"
    request := none, response := none }

/-- A decoded review carrying `admReqUid`. -/
def arUid : AdmissionReview :=
  { apiVersion := "admission.k8s.io/v1", kind := "AdmissionReview"
    request := some admReqUid, response := none }

/-- The zero-value review left behind by a failed decode. -/
def arZero : AdmissionReview :=
  { apiVersion := "", kind := "", request := none, response := none }

/-- A representative serializer error text. -/
def decodeErrText : String :=
  "couldn't get version/kind; json parse error: unexpected end of JSON input"

/-- A representative json.Unmarshal error text. -/
def unmarshalErrText : String :=
  "json: cannot unmarshal string into Go value of type v1.Pod"

/-- A codec whose decode succeeds but yields a review with nil Request. -/
def codecNilReq : Codec :=
  { decodeAR := fun _ => (arNilReq, none), unmarshalPod := fun _ => .ok podNginx }

/-- A codec whose decode succeeds with `arUid` and whose pod unmarshal
succeeds with `podNginx`. -/
def codecOk : Codec :=
  { decodeAR := fun _ => (arUid, none), unmarshalPod := fun _ => .ok podNginx }

/-- A codec whose envelope decode fails. -/
def codecDecodeErr : Codec :=
  { decodeAR := fun _ => (arZero, some decodeErrText)
    unmarshalPod := fun _ => .ok podNginx }

/-- A codec whose envelope decode succeeds but whose pod unmarshal fails. -/
def codecUnmarshalErr : Codec :=
  { decodeAR := fun _ => (arUid, none)
    unmarshalPod := fun _ => .error unmarshalErrText }

/-- A well-formed /validate request (non-empty body, JSON content type). -/
def reqValidate : HttpRequest :=
  { body := [123], contentType := "application/json", path := "/validate" }

/-- The envelope the Handler writes for `codecOk` on `reqValidate`. -/
def respOkExpected : AdmissionResponse :=
  { uid := "705ab4f5-6393-11e8-b7cc-42010a800002", allowed := true
    result := some { code := 200, message := "" } }

/-- The full expected outbound review for `codecOk` on `reqValidate`. -/
def envOkExpected : AdmissionReview :=
  { apiVersion := "admission.k8s.io/v1", kind := "AdmissionReview"
    request := none, response := some respOkExpected }

/-! Helper lemmas about the loops and the Handler. -/

/-- The inner registry fold, generalized over its accumulator: it
computes the disjunction of the accumulator with "some prefix
matches". -/
theorem whitelistedLoop_aux (image : String) (regs : List String) (b : Bool) :
    regs.foldl (fun w reg => if strHasPrefix image reg then true else w) b =
      (b || regs.any (fun reg => strHasPrefix image reg)) := by
  induction regs generalizing b with
  | nil => simp
  | cons a l ih =>
    rw [List.foldl_cons, ih, List.any_cons]
    cases strHasPrefix image a <;> cases b <;> simp

/-- The inner loop decides exactly "some registry prefix matches". -/
theorem whitelistedLoop_eq_any (image : String) (regs : List String) :
    whitelistedLoop image regs = regs.any (fun reg => strHasPrefix image reg) := by
  rw [whitelistedLoop, whitelistedLoop_aux]
  simp

/-- When every container is whitelisted the loop returns the initial
verdict (allowed, 200, empty message). -/
theorem containersLoop_all {regs : List String} {cs : List Container}
    (h : ∀ c ∈ cs, whitelistedLoop c.image regs = true) :
    containersLoop regs cs = (true, 200, "") := by
  induction cs with
  | nil => rfl
  | cons c rest ih =>
    rw [containersLoop, if_pos (h c (List.mem_cons_self c rest))]
    exact ih fun c' hc' => h c' (List.mem_cons_of_mem c hc')

/-- When the first non-whitelisted container (in container order) is
`c`, the loop stops there with (denied, 403, message about `c`). -/
theorem containersLoop_find {regs : List String} {cs : List Container} {c : Container}
    (h : cs.find? (fun c => !whitelistedLoop c.image regs) = some c) :
    containersLoop regs cs = (false, 403, untrustedMsg c.image regs) := by
  induction cs with
  | nil => simp [List.find?] at h
  | cons a rest ih =>
    cases hw : whitelistedLoop a.image regs with
    | true =>
      rw [List.find?_cons_of_neg _ (by simp [hw])] at h
      rw [containersLoop, if_pos hw]
      exact ih h
    | false =>
      rw [List.find?_cons_of_pos _ (by simp [hw])] at h
      cases h
      rw [containersLoop, if_neg (by simp [hw])]

/-- `List.any` is invariant under permutation of the list. -/
theorem any_of_perm {l₁ l₂ : List String} (p : String → Bool) (h : l₁.Perm l₂) :
    l₁.any p = l₂.any p := by
  cases h₂ : l₂.any p with
  | true =>
    rw [List.any_eq_true] at h₂ ⊢
    obtain ⟨x, hx, hpx⟩ := h₂
    exact ⟨x, h.mem_iff.mpr hx, hpx⟩
  | false =>
    rw [List.any_eq_false] at h₂ ⊢
    exact fun x hx => h₂ x (h.mem_iff.mp hx)

/-- Permuting the whitelist leaves the loop's allow flag and status
code unchanged (the message may list the registries differently). -/
theorem containersLoop_perm {regs₁ regs₂ : List String}
    (h : regs₁.Perm regs₂) (cs : List Container) :
    (containersLoop regs₁ cs).1 = (containersLoop regs₂ cs).1 ∧
      (containersLoop regs₁ cs).2.1 = (containersLoop regs₂ cs).2.1 := by
  induction cs with
  | nil => exact ⟨rfl, rfl⟩
  | cons c rest ih =>
    have hw : whitelistedLoop c.image regs₁ = whitelistedLoop c.image regs₂ := by
      rw [whitelistedLoop_eq_any, whitelistedLoop_eq_any]
      exact any_of_perm _ h
    rw [containersLoop, containersLoop, hw]
    cases whitelistedLoop c.image regs₂ with
    | true => simpa using ih
    | false => exact ⟨rfl, rfl⟩

/-- The empty registry string is a prefix of every image reference. -/
theorem strHasPrefix_empty (s : String) : strHasPrefix s "" = true := by
  rw [strHasPrefix]
  cases s.data <;> rfl

/-- Handler reduction when transport preconditions hold but the
envelope decode fails: a code-500 response is wrapped and written. -/
theorem Handler_decode_err {s : WebhookServer} {codec : Codec} {r : HttpRequest}
    {ar : AdmissionReview} {e : String}
    (hlen : ¬ r.body.length = 0) (hct : r.contentType = "application/json")
    (hdec : codec.decodeAR r.body = (ar, some e)) :
    Handler s codec r =
      writeEnvelope ar
        (some { uid := "", allowed := false
                result := some { code := 500, message := e } }) := by
  rw [Handler, if_neg hlen, if_pos hct, hdec]

/-- Handler reduction when transport preconditions hold and the
envelope decode succeeds: dispatch on the URL path. -/
theorem Handler_decode_ok {s : WebhookServer} {codec : Codec} {r : HttpRequest}
    {ar : AdmissionReview}
    (hlen : ¬ r.body.length = 0) (hct : r.contentType = "application/json")
    (hdec : codec.decodeAR r.body = (ar, none)) :
    Handler s codec r =
      (if r.path = "/mutate" then writeEnvelope ar none
       else if r.path = "/validate" then
         match s.validate codec.unmarshalPod ar with
         | none => .panicked
         | some resp => writeEnvelope ar (some resp)
       else writeEnvelope ar none) := by
  rw [Handler, if_neg hlen, if_pos hct, hdec]

/-! The claims. -/

/-- Claim C1: for every workload containing at least one container
whose image matches no whitelist entry as a literal string prefix, the
evaluation denies with code 403, stops at the first non-compliant
container in container order, and the message names that container's
exact image reference and the full whitelist. -/
theorem C1_first_violation_denies (s : WebhookServer) (pod : Pod)
    (h : ∃ c ∈ pod.spec.containers,
      ∀ reg ∈ s.whiteListRegistries, strHasPrefix c.image reg = false) :
    ∃ c, pod.spec.containers.find?
        (fun c => !whitelistedLoop c.image s.whiteListRegistries) = some c ∧
      evaluate s pod =
        { uid := "", allowed := false
          result := some { code := 403
                           message := untrustedMsg c.image s.whiteListRegistries } } := by
  obtain ⟨c₀, hc₀, hbad⟩ := h
  have hbad' : whitelistedLoop c₀.image s.whiteListRegistries = false := by
    rw [whitelistedLoop_eq_any, List.any_eq_false]
    intro reg hreg
    simp [hbad reg hreg]
  have hsome : (pod.spec.containers.find?
      (fun c => !whitelistedLoop c.image s.whiteListRegistries)).isSome := by
    rw [List.find?_isSome]
    exact ⟨c₀, hc₀, by simp [hbad']⟩
  obtain ⟨c, hc⟩ := Option.isSome_iff_exists.mp hsome
  refine ⟨c, hc, ?_⟩
  rw [evaluate, containersLoop_find hc]

/-- Witness for C1 at the documented example: whitelist
[docker.io/library/, gcr.io/myorg/], containers nginx (compliant) then
evil.com/malware:latest (first violation). -/
theorem C1_witness :
    ∃ c, podMixed.spec.containers.find?
        (fun c => !whitelistedLoop c.image srvExample.whiteListRegistries) = some c ∧
      evaluate srvExample podMixed =
        { uid := "", allowed := false
          result := some { code := 403
                           message := untrustedMsg c.image srvExample.whiteListRegistries } } :=
  C1_first_violation_denies srvExample podMixed (by decide)

/-- Claim C2: when every container's image starts with some whitelist
entry — vacuously so for an empty container list — the evaluation
allows with code 200 and an empty message. -/
theorem C2_all_compliant_allows (s : WebhookServer) (pod : Pod)
    (h : ∀ c ∈ pod.spec.containers,
      ∃ reg ∈ s.whiteListRegistries, strHasPrefix c.image reg = true) :
    evaluate s pod =
      { uid := "", allowed := true, result := some { code := 200, message := "" } } := by
  rw [evaluate, containersLoop_all]
  intro c hc
  rw [whitelistedLoop_eq_any, List.any_eq_true]
  exact h c hc

/-- Witness for C2 at the documented example: whitelist [gcr.io/myorg/],
single container gcr.io/myorg/app:v2. -/
theorem C2_witness :
    evaluate srvOrg podApp =
      { uid := "", allowed := true, result := some { code := 200, message := "" } } :=
  C2_all_compliant_allows srvOrg podApp (by decide)

/-- Claim C3 is refuted by the code: a successfully decoded review
whose Request field is nil, routed to /validate, makes `validate`
dereference the nil pointer in its logging call (webhook.go lines
113-114), so the handler panics and no response envelope is written.
This theorem evaluates the model at that failing input. -/
theorem C3_nil_request_panics :
    Handler srvExample codecNilReq reqValidate = .panicked := by decide

/-- Claim C4 is refuted by the code: on a wrong Content-Type the source
calls `klog.Error(writer, ..., http.StatusBadRequest)` — a log
statement, not `http.Error` (contrast line 44) — and returns, so
nothing is written to the connection and no outer 400 is produced.
This theorem evaluates the model at that failing input. -/
theorem C4_wrong_content_type_writes_nothing :
    Handler srvExample codecNilReq
      { body := [123], contentType := "text/plain", path := "/validate" } =
      .noWrite := by decide

/-- Claim C5: when transport preconditions hold but the body fails to
decode as a review envelope, the Handler still writes an envelope
(outer status 200) whose embedded response has allowed = false,
code 500 and the decode error text as its message. -/
theorem C5_decode_failure_500 (s : WebhookServer) (codec : Codec) (r : HttpRequest)
    (ar : AdmissionReview) (e : String)
    (hbody : r.body ≠ [])
    (hct : r.contentType = "application/json")
    (hdec : codec.decodeAR r.body = (ar, some e)) :
    ∃ env, Handler s codec r = .wrote env ∧
      ∃ resp, env.response = some resp ∧ resp.allowed = false ∧
        resp.result = some { code := 500, message := e } := by
  have hlen : ¬ r.body.length = 0 := by simpa [List.length_eq_zero] using hbody
  rw [Handler_decode_err hlen hct hdec]
  obtain ⟨av, k, reqOpt, respOpt⟩ := ar
  cases reqOpt with
  | none => exact ⟨_, rfl, _, rfl, rfl, rfl⟩
  | some req => exact ⟨_, rfl, _, rfl, rfl, rfl⟩

/-- Witness for C5 with a concrete failing decoder. -/
theorem C5_witness :
    ∃ env, Handler srvExample codecDecodeErr reqValidate = .wrote env ∧
      ∃ resp, env.response = some resp ∧ resp.allowed = false ∧
        resp.result = some { code := 500, message := decodeErrText } :=
  C5_decode_failure_500 srvExample codecDecodeErr reqValidate arZero decodeErrText
    (by decide) rfl rfl

/-- Claim C6: whenever the body decodes successfully and the decoded
review carries a Request, any response embedded in the written
envelope carries the request's UID, whatever the decision was. -/
theorem C6_uid_roundtrip (s : WebhookServer) (codec : Codec) (r : HttpRequest)
    (ar : AdmissionReview) (req : AdmissionRequest)
    (env : AdmissionReview) (resp : AdmissionResponse)
    (hbody : r.body ≠ []) (hct : r.contentType = "application/json")
    (hdec : codec.decodeAR r.body = (ar, none))
    (hreq : ar.request = some req)
    (hout : Handler s codec r = .wrote env)
    (hresp : env.response = some resp) :
    resp.uid = req.uid := by
  have hlen : ¬ r.body.length = 0 := by simpa [List.length_eq_zero] using hbody
  rw [Handler_decode_ok hlen hct hdec] at hout
  obtain ⟨av, k, reqOpt, respOpt⟩ := ar
  have hreq' : reqOpt = some req := hreq
  subst hreq'
  by_cases hm : r.path = "/mutate"
  · rw [if_pos hm] at hout
    simp only [writeEnvelope] at hout
    injection hout with h
    rw [← h] at hresp
    simp at hresp
  · by_cases hv : r.path = "/validate"
    · rw [if_neg hm, if_pos hv] at hout
      simp only [WebhookServer.validate] at hout
      cases hum : codec.unmarshalPod req.objectRaw with
      | error e =>
        rw [hum] at hout
        simp only [writeEnvelope] at hout
        injection hout with h
        rw [← h] at hresp
        simp only [] at hresp
        injection hresp with h2
        rw [← h2]
      | ok pod =>
        rw [hum] at hout
        simp only [writeEnvelope] at hout
        injection hout with h
        rw [← h] at hresp
        simp only [] at hresp
        injection hresp with h2
        rw [← h2]
    · rw [if_neg hm, if_neg hv] at hout
      simp only [writeEnvelope] at hout
      injection hout with h
      rw [← h] at hresp
      simp at hresp

/-- Witness for C6 at a concrete /validate request whose review UID is
705ab4f5-6393-11e8-b7cc-42010a800002. -/
theorem C6_witness :
    Handler srvExample codecOk reqValidate = .wrote envOkExpected ∧
      envOkExpected.response = some respOkExpected ∧
      respOkExpected.uid = admReqUid.uid :=
  ⟨by decide, by decide,
    C6_uid_roundtrip srvExample codecOk reqValidate arUid admReqUid
      envOkExpected respOkExpected (by decide) rfl rfl rfl (by decide) (by decide)⟩

/-- Claim C7: on /validate, when the envelope decoded but the embedded
raw payload fails to unmarshal as a pod, the written envelope embeds a
response with allowed = false, code 400 and the unmarshal error text
as its message. -/
theorem C7_unmarshal_failure_400 (s : WebhookServer) (codec : Codec) (r : HttpRequest)
    (ar : AdmissionReview) (req : AdmissionRequest) (e : String)
    (hbody : r.body ≠ []) (hct : r.contentType = "application/json")
    (hdec : codec.decodeAR r.body = (ar, none))
    (hreq : ar.request = some req)
    (hpath : r.path = "/validate")
    (hum : codec.unmarshalPod req.objectRaw = .error e) :
    ∃ env, Handler s codec r = .wrote env ∧
      ∃ resp, env.response = some resp ∧ resp.allowed = false ∧
        resp.result = some { code := 400, message := e } := by
  have hlen : ¬ r.body.length = 0 := by simpa [List.length_eq_zero] using hbody
  have hm : ¬ r.path = "/mutate" := by rw [hpath]; decide
  rw [Handler_decode_ok hlen hct hdec, if_neg hm, if_pos hpath]
  obtain ⟨av, k, reqOpt, respOpt⟩ := ar
  have hreq' : reqOpt = some req := hreq
  subst hreq'
  simp only [WebhookServer.validate]
  rw [hum]
  exact ⟨_, rfl, _, rfl, rfl, rfl⟩

/-- Witness for C7 with a concrete failing pod unmarshal. -/
theorem C7_witness :
    ∃ env, Handler srvExample codecUnmarshalErr reqValidate = .wrote env ∧
      ∃ resp, env.response = some resp ∧ resp.allowed = false ∧
        resp.result = some { code := 400, message := unmarshalErrText } :=
  C7_unmarshal_failure_400 srvExample codecUnmarshalErr reqValidate arUid admReqUid
    unmarshalErrText (by decide) rfl rfl rfl rfl rfl

/-- Claim C8: with an empty whitelist, every workload with at least one
container is denied — no whitelist entry can match, so an empty policy
is never an implicit allow-all. -/
theorem C8_empty_policy_denies (s : WebhookServer) (pod : Pod)
    (hs : s.whiteListRegistries = []) (h : pod.spec.containers ≠ []) :
    (evaluate s pod).allowed = false := by
  cases hcs : pod.spec.containers with
  | nil => exact absurd hcs h
  | cons c rest => simp [evaluate, hcs, containersLoop, whitelistedLoop, hs]

/-- Witness for C8: the empty whitelist denies the nginx pod. -/
theorem C8_witness : (evaluate ⟨[]⟩ podNginx).allowed = false :=
  C8_empty_policy_denies ⟨[]⟩ podNginx rfl (by decide)

/-- Counterexample to claim C9 as stated: the whitelists [a, b] and
[b, a] are permutations of each other, yet on the single-container
pod with image "c" the two full Decisions differ — the deny message
renders the whitelist in its given order. -/
theorem C9_counterexample :
    (["a", "b"] : List String).Perm ["b", "a"] ∧
      evaluate ⟨["a", "b"]⟩ podC ≠ evaluate ⟨["b", "a"]⟩ podC :=
  ⟨by decide, by decide⟩

/-- Claim C9 as amended: permuting the whitelist leaves the allow flag
and the status code of the Decision unchanged; only the ordering of
the whitelist inside the deny message may differ. -/
theorem C9_perm_same_verdict (s₁ s₂ : WebhookServer) (pod : Pod)
    (h : s₁.whiteListRegistries.Perm s₂.whiteListRegistries) :
    (evaluate s₁ pod).allowed = (evaluate s₂ pod).allowed ∧
      (evaluate s₁ pod).result.map Status.code =
        (evaluate s₂ pod).result.map Status.code := by
  obtain ⟨h₁, h₂⟩ := containersLoop_perm h pod.spec.containers
  simp [evaluate, h₁, h₂]

/-- Witness for the amended C9 at the counterexample's whitelists. -/
theorem C9_witness :
    (evaluate ⟨["a", "b"]⟩ podC).allowed = (evaluate ⟨["b", "a"]⟩ podC).allowed ∧
      (evaluate ⟨["a", "b"]⟩ podC).result.map Status.code =
        (evaluate ⟨["b", "a"]⟩ podC).result.map Status.code :=
  C9_perm_same_verdict ⟨["a", "b"]⟩ ⟨["b", "a"]⟩ podC (by decide)

/-- Claim C10: a whitelist containing the empty string allows every
workload — the empty string is a literal prefix of every image
reference, so every container is whitelisted. -/
theorem C10_empty_entry_allows_all (s : WebhookServer) (pod : Pod)
    (h : "" ∈ s.whiteListRegistries) :
    evaluate s pod =
      { uid := "", allowed := true, result := some { code := 200, message := "" } } := by
  rw [evaluate, containersLoop_all]
  intro c _
  rw [whitelistedLoop_eq_any, List.any_eq_true]
  exact ⟨"", h, strHasPrefix_empty c.image⟩

/-- Witness for C10: the whitelist [gcr.io/myorg/, ""] allows even the
pod with the evil.com container. -/
theorem C10_witness :
    evaluate srvEmptyPfx podMixed =
      { uid := "", allowed := true, result := some { code := 200, message := "" } } :=
  C10_empty_entry_allows_all srvEmptyPfx podMixed (by decide)
